import Mathlib

/-!
Verification development for the JalRakshak water-management frontend.

The TypeScript sources are shallowly embedded: numeric sensor values become
rationals (ℚ), fallible backend calls become `Except String` values whose
outcome is passed in as a parameter (the backend is an external service),
and nondeterministic runtime inputs (`Date.now()`, `Math.random()`,
`toFixed` formatting) become explicit parameters.
-/

namespace JalRakshak

/-- The `SensorData` shape passed from `App` to the UI components
(`src/components/AlertSystem.tsx`, `App.tsx`). -/
structure SensorData where
  waterFlow : ℚ
  pressure : ℚ
  quality : ℚ
  temperature : ℚ
  ph : ℚ
  turbidity : ℚ
  solarPumpStatus : String
deriving Repr, DecidableEq

/-- Alert severity, the three-valued union in the UI `Alert` interface. -/
inductive AlertType where
  | critical
  | warning
  | info
deriving Repr, DecidableEq

/-- The UI `Alert` interface of `src/components/AlertSystem.tsx`
(`actions?: string[]` becomes an `Option`). -/
structure Alert where
  id : String
  type : AlertType
  title : String
  description : String
  timestamp : String
  source : String
  acknowledged : Bool
  resolved : Bool
  actions : Option (List String)
deriving Repr, DecidableEq

/-- The alert-generation `useEffect` body of `AlertSystem`, threshold part:
the four conditional pushes onto `newAlerts`. `now` stands for
`Date.now()` interpolated into the id, `ts` for
`new Date().toLocaleString()`, and `fmt1`/`fmt0` for `toFixed(1)` /
`toFixed(0)` formatting of the readings in the description text. -/
def thresholdAlerts (s : SensorData) (now ts : String)
    (fmt1 fmt0 : ℚ → String) : List Alert :=
  (if s.pressure < 3.0 then
    [{ id := "pressure-" ++ now,
       type := AlertType.critical,
       title := "Low System Pressure Detected",
       description := "Pressure has dropped to " ++ fmt1 s.pressure ++
         " bar, below the critical threshold of 3.0 bar.",
       timestamp := ts,
       source := "Pressure Sensor P1",
       acknowledged := false,
       resolved := false,
       actions := some ["Check pump operation", "Inspect for leaks",
         "Contact maintenance team"] }]
   else []) ++
  (if s.waterFlow < 35 then
    [{ id := "flow-" ++ now,
       type := AlertType.warning,
       title := "Low Water Flow Rate",
       description := "Flow rate is " ++ fmt1 s.waterFlow ++
         " L/min, below optimal range.",
       timestamp := ts,
       source := "Flow Sensor F1",
       acknowledged := false,
       resolved := false,
       actions := some ["Check filter condition", "Verify pump settings",
         "Inspect inlet valve"] }]
   else []) ++
  (if s.quality < 90 then
    [{ id := "quality-" ++ now,
       type := AlertType.warning,
       title := "Water Quality Below Standard",
       description := "Quality index is " ++ fmt0 s.quality ++
         "%, below the recommended 90% threshold.",
       timestamp := ts,
       source := "Quality Sensor Q1",
       acknowledged := false,
       resolved := false,
       actions := some ["Test chlorine levels", "Check filtration system",
         "Schedule water sampling"] }]
   else []) ++
  (if s.ph < 6.5 ∨ s.ph > 8.5 then
    [{ id := "ph-" ++ now,
       type := AlertType.warning,
       title := "pH Level Out of Range",
       description := "pH level is " ++ fmt1 s.ph ++
         ", outside the safe range of 6.5-8.5.",
       timestamp := ts,
       source := "pH Sensor",
       acknowledged := false,
       resolved := false,
       actions := some ["Test pH manually", "Check sensor calibration",
         "Adjust treatment system"] }]
   else [])

/-- The three hard-coded demonstration alerts appended after the
threshold-derived ones in the same `useEffect`. -/
def staticAlerts : List Alert :=
  [{ id := "leak-001",
     type := AlertType.critical,
     title := "Pipeline Leak Detected",
     description := "AI algorithms detected potential leak in Ward 3 distribution line based on pressure drop patterns.",
     timestamp := "2025-01-21 14:30:00",
     source := "ML Leak Detection",
     acknowledged := false,
     resolved := false,
     actions := some ["Dispatch field team", "Isolate affected section",
       "Notify affected households"] },
   { id := "maintenance-001",
     type := AlertType.info,
     title := "Scheduled Maintenance Reminder",
     description := "Monthly tank cleaning is due for Main Storage Tank.",
     timestamp := "2025-01-21 12:00:00",
     source := "Maintenance Schedule",
     acknowledged := true,
     resolved := false,
     actions := some ["Schedule cleaning crew", "Notify supervisor",
       "Prepare equipment"] },
   { id := "consumption-001",
     type := AlertType.warning,
     title := "Unusual Consumption Pattern",
     description := "Ward 2 showing 25% higher than average water consumption in the last 24 hours.",
     timestamp := "2025-01-21 10:15:00",
     source := "Consumption Analytics",
     acknowledged := true,
     resolved := true,
     actions := some ["Investigate cause", "Check for leaks",
       "Contact ward representative"] }]

/-- The full list the effect stores with `setAlerts([...newAlerts, ...staticAlerts])`. -/
def generatedAlerts (s : SensorData) (now ts : String)
    (fmt1 fmt0 : ℚ → String) : List Alert :=
  thresholdAlerts s now ts fmt1 fmt0 ++ staticAlerts

/-! ## Client-side alert actions (`AlertSystem.tsx`) -/

/-- Models `acknowledgeAlert` in `AlertSystem.tsx`: maps over the alert list and
sets `acknowledged` on the alert whose id matches. -/
def acknowledgeAlertClient (alerts : List Alert) (alertId : String) : List Alert :=
  alerts.map (fun alert =>
    if alert.id = alertId then { alert with acknowledged := true } else alert)

/-- Models `resolveAlert` in `AlertSystem.tsx`: maps over the alert list and sets
both `resolved` and `acknowledged` on the alert whose id matches. -/
def resolveAlertClient (alerts : List Alert) (alertId : String) : List Alert :=
  alerts.map (fun alert =>
    if alert.id = alertId then
      { alert with resolved := true, acknowledged := true }
    else alert)

/-! ## Database row types (interfaces in the data-access layer) -/

/-- The `SensorReading` interface (database row). -/
structure SensorReadingRow where
  id : String
  sensor_id : String
  sensor_type : String
  value : ℚ
  unit : String
  location : String
  timestamp : String
  status : String
  device_id : Option String
  battery_level : Option Int
  signal_strength : Option Int
deriving Repr, DecidableEq

/-- The `Complaint` interface (database row). -/
structure ComplaintRow where
  id : String
  description : String
  location : String
  priority : String
  status : String
  submitted_by : String
  submitted_at : String
  photo_urls : Option (List String)
  gps_coordinates : Option String
  gps_accuracy : Option ℚ
  resolved_at : Option String
  assigned_to : Option String
  resolution_notes : Option String
  category : Option String
deriving Repr, DecidableEq

/-- The `MaintenanceTask` interface (database row). -/
structure MaintenanceTaskRow where
  id : String
  task : String
  description : String
  priority : String
  status : String
  due_date : String
  assigned_to : String
  completed_at : Option String
  location : String
  notes : Option String
  photo_urls : Option (List String)
deriving Repr, DecidableEq

/-- The `Alert` interface of the data-access layer (database row). -/
structure AlertRow where
  id : String
  type : AlertType
  title : String
  description : String
  source : String
  timestamp : String
  acknowledged : Bool
  resolved : Bool
  acknowledged_by : Option String
  acknowledged_at : Option String
  resolved_by : Option String
  resolved_at : Option String
  sensor_id : Option String
  threshold_value : Option ℚ
  current_value : Option ℚ
deriving Repr, DecidableEq

/-- The projected row returned by `getSystemHealth`'s query
(`select('sensor_type, status, timestamp')`). -/
structure HealthRow where
  sensor_type : String
  status : String
  timestamp : String
deriving Repr, DecidableEq

/-- The projected row returned by `getConsumptionAnalytics`'s query
(`select('value, timestamp')`). -/
structure ConsumptionRow where
  value : ℚ
  timestamp : String
deriving Repr, DecidableEq

/-- JavaScript truthiness of an optional string argument: `undefined` and
the empty string are falsy, every other string is truthy.  Used for the
`if (assignedTo)`-style guards in the data-access layer. -/
def jsTruthy : Option String → Bool
  | none => false
  | some s => s != ""

/-! ## The `JalRakshakAPI` data-access layer

Each operation first checks whether the Supabase client is configured
(`supabase` may be `null`); the client is modelled as `sb : Option Unit`
(`none` = not configured).  The outcome of the wrapped backend call is
external, so it is passed in as an `Except String τ` parameter (`error`
models the returned `error` object, which the wrapper throws). -/

/-- Models `JalRakshakAPI.getLatestSensorReadings`. -/
def getLatestSensorReadingsApi (sb : Option Unit)
    (resp : Except String (List SensorReadingRow)) :
    Except String (List SensorReadingRow) :=
  match sb with
  | none => Except.ok []
  | some _ =>
    match resp with
    | Except.error e => Except.error e
    | Except.ok d => Except.ok d

/-- Models `JalRakshakAPI.getSensorReadingsByType` (the `eq` filter runs on the
backend, so the filtered response is the parameter). -/
def getSensorReadingsByTypeApi (sb : Option Unit) (sensorType : String)
    (resp : Except String (List SensorReadingRow)) :
    Except String (List SensorReadingRow) :=
  match sb with
  | none => Except.ok []
  | some _ =>
    match resp with
    | Except.error e => Except.error e
    | Except.ok d => Except.ok d

/-- Models `JalRakshakAPI.insertSensorReading`. -/
def insertSensorReadingApi (sb : Option Unit)
    (resp : Except String SensorReadingRow) :
    Except String SensorReadingRow :=
  match sb with
  | none => Except.error "Supabase not configured"
  | some _ =>
    match resp with
    | Except.error e => Except.error e
    | Except.ok d => Except.ok d

/-- Models `JalRakshakAPI.getComplaints`. -/
def getComplaintsApi (sb : Option Unit)
    (resp : Except String (List ComplaintRow)) :
    Except String (List ComplaintRow) :=
  match sb with
  | none => Except.ok []
  | some _ =>
    match resp with
    | Except.error e => Except.error e
    | Except.ok d => Except.ok d

/-- Models `JalRakshakAPI.getMaintenanceTasks`. -/
def getMaintenanceTasksApi (sb : Option Unit)
    (resp : Except String (List MaintenanceTaskRow)) :
    Except String (List MaintenanceTaskRow) :=
  match sb with
  | none => Except.ok []
  | some _ =>
    match resp with
    | Except.error e => Except.error e
    | Except.ok d => Except.ok d

/-- Models `JalRakshakAPI.createMaintenanceTask`. -/
def createMaintenanceTaskApi (sb : Option Unit)
    (resp : Except String MaintenanceTaskRow) :
    Except String MaintenanceTaskRow :=
  match sb with
  | none => Except.error "Supabase not configured"
  | some _ =>
    match resp with
    | Except.error e => Except.error e
    | Except.ok d => Except.ok d

/-- Models `JalRakshakAPI.completeMaintenanceTask` in its plain variant
(no notes/photos arguments; the update payload fixes `status` to
completed and `completed_at` to now, and the backend outcome of that
update is the parameter).  The photo-supporting variant of the
data-access layer is `completeMaintenanceTaskPhotosApi` below; both
variants share this guard. -/
def completeMaintenanceTaskApi (sb : Option Unit)
    (resp : Except String MaintenanceTaskRow) :
    Except String MaintenanceTaskRow :=
  match sb with
  | none => Except.error "Supabase not configured"
  | some _ =>
    match resp with
    | Except.error e => Except.error e
    | Except.ok d => Except.ok d

/-- The partial update record `updateData` assembled by the
photo-supporting `completeMaintenanceTask` (a field is `none` when the
corresponding key is not put on the object). -/
structure MaintenanceUpdate where
  status : String
  completed_at : String
  notes : Option String
  photo_urls : Option (List String)
deriving Repr, DecidableEq

/-- How the photo-supporting `completeMaintenanceTask` builds
`updateData`: always `status: 'completed'` and `completed_at: now`;
`notes` only under `if (notes)` (JS truthiness); `photo_urls` only when
at least one photo upload produced a URL. -/
def completeMaintenanceTaskUpdateData (notes : Option String)
    (photoUrls : List String) (now : String) : MaintenanceUpdate :=
  { status := "completed",
    completed_at := now,
    notes := if jsTruthy notes then notes else none,
    photo_urls := if photoUrls.isEmpty then none else some photoUrls }

/-- Models the photo-supporting `JalRakshakAPI.completeMaintenanceTask`:
guard, then a per-photo upload loop whose failures are caught and
logged (`uploads` gives each upload's outcome; only successful URLs are
collected), then the task update built from the collected URLs; the
update is the operation's only uncaught backend call (`resp` is the
backend acting on the update record), and its error is thrown. -/
def completeMaintenanceTaskPhotosApi (sb : Option Unit)
    (notes : Option String) (uploads : List (Except String String))
    (now : String)
    (resp : MaintenanceUpdate → Except String MaintenanceTaskRow) :
    Except String MaintenanceTaskRow :=
  match sb with
  | none => Except.error "Supabase not configured"
  | some _ =>
    let photoUrls := uploads.filterMap Except.toOption
    match resp (completeMaintenanceTaskUpdateData notes photoUrls now) with
    | Except.error e => Except.error e
    | Except.ok d => Except.ok d

/-- Models `JalRakshakAPI.getAlerts`. -/
def getAlertsApi (sb : Option Unit)
    (resp : Except String (List AlertRow)) :
    Except String (List AlertRow) :=
  match sb with
  | none => Except.ok []
  | some _ =>
    match resp with
    | Except.error e => Except.error e
    | Except.ok d => Except.ok d

/-- Models `JalRakshakAPI.createAlert`. -/
def createAlertApi (sb : Option Unit)
    (resp : Except String AlertRow) :
    Except String AlertRow :=
  match sb with
  | none => Except.error "Supabase not configured"
  | some _ =>
    match resp with
    | Except.error e => Except.error e
    | Except.ok d => Except.ok d

/-- Models `JalRakshakAPI.getConsumptionAnalytics` (the `eq`/`gte` filters run on
the backend). -/
def getConsumptionAnalyticsApi (sb : Option Unit) (days : Nat)
    (resp : Except String (List ConsumptionRow)) :
    Except String (List ConsumptionRow) :=
  match sb with
  | none => Except.ok []
  | some _ =>
    match resp with
    | Except.error e => Except.error e
    | Except.ok d => Except.ok d

/-- The subscription object returned by `JalRakshakAPI.subscribeTo`:
either the no-op stub it builds when unconfigured, or a real channel. -/
inductive Subscription where
  | noop
  | channel (name : String)
deriving Repr, DecidableEq

/-- Models `JalRakshakAPI.subscribeTo`. -/
def subscribeToApi (sb : Option Unit) (table : String) : Subscription :=
  match sb with
  | none => Subscription.noop
  | some _ => Subscription.channel (table ++ "_changes")

/-- The `data.forEach` loop of `getSystemHealth`: walk the readings in
order, carrying the `healthMap`, and record a `(sensor_type, status)`
entry only when the type has no entry yet (`if (!healthMap.has(...))`).
JS `Map.set` appends new keys in insertion order, so the map is an
association list extended at the tail. -/
def healthFold (acc : List (String × String)) :
    List HealthRow → List (String × String)
  | [] => acc
  | r :: rs =>
    if (acc.lookup r.sensor_type).isSome then healthFold acc rs
    else healthFold (acc ++ [(r.sensor_type, r.status)]) rs

/-- The client-side reduction of `getSystemHealth`, starting from the
empty `new Map()`. -/
def healthMapOf (rs : List HealthRow) : List (String × String) :=
  healthFold [] rs

/-- Models `JalRakshakAPI.getSystemHealth`: fetch the 100 newest projected
readings and reduce them client-side to the latest status per type. -/
def getSystemHealthApi (sb : Option Unit)
    (resp : Except String (List HealthRow)) :
    Except String (List (String × String)) :=
  match sb with
  | none => Except.ok []
  | some _ =>
    match resp with
    | Except.error e => Except.error e
    | Except.ok d => Except.ok (healthMapOf d)

/-- The partial update record `updateData` assembled by
`updateComplaintStatus` (a field is `none` when the corresponding key is
not put on the object). -/
structure ComplaintUpdate where
  status : String
  assigned_to : Option String
  resolution_notes : Option String
  resolved_at : Option String
deriving Repr, DecidableEq

/-- How `updateComplaintStatus` builds `updateData`: always `status`;
`assigned_to` only under `if (assignedTo)` (JS truthiness);
`resolution_notes` only under `if (resolutionNotes)`; `resolved_at`
(set to the current time `now`) only when `status === 'resolved'`. -/
def updateComplaintStatusData (status : String)
    (assignedTo resolutionNotes : Option String) (now : String) :
    ComplaintUpdate :=
  { status := status,
    assigned_to := if jsTruthy assignedTo then assignedTo else none,
    resolution_notes :=
      if jsTruthy resolutionNotes then resolutionNotes else none,
    resolved_at := if status = "resolved" then some now else none }

/-- Models `JalRakshakAPI.updateComplaintStatus`: guard, build `updateData`,
send it to the backend (`resp` is the backend acting on the record),
throw on error. -/
def updateComplaintStatusApi (sb : Option Unit) (status : String)
    (assignedTo resolutionNotes : Option String) (now : String)
    (resp : ComplaintUpdate → Except String ComplaintRow) :
    Except String ComplaintRow :=
  match sb with
  | none => Except.error "Supabase not configured"
  | some _ =>
    match resp (updateComplaintStatusData status assignedTo resolutionNotes now) with
    | Except.error e => Except.error e
    | Except.ok d => Except.ok d

/-- The update `acknowledgeAlert` applies to the matched alert row:
`acknowledged: true`, `acknowledged_at: now`, and `acknowledged_by`
only when a (truthy) `userId` was passed. -/
def acknowledgeAlertUpdate (now : String) (userId : Option String)
    (a : AlertRow) : AlertRow :=
  let base := { a with acknowledged := true, acknowledged_at := some now }
  if jsTruthy userId then { base with acknowledged_by := userId } else base

/-- The update `resolveAlert` applies to the matched alert row: both
`resolved` and `acknowledged` set true, both timestamps set, and both
`_by` fields when a (truthy) `userId` was passed. -/
def resolveAlertUpdate (now : String) (userId : Option String)
    (a : AlertRow) : AlertRow :=
  let base := { a with resolved := true, acknowledged := true,
                       resolved_at := some now, acknowledged_at := some now }
  if jsTruthy userId then
    { base with resolved_by := userId, acknowledged_by := userId }
  else base

/-- Models `JalRakshakAPI.acknowledgeAlert`: guard, then backend update
(`resp` is the backend outcome for the update record). -/
def acknowledgeAlertApi (sb : Option Unit)
    (resp : Except String AlertRow) : Except String AlertRow :=
  match sb with
  | none => Except.error "Supabase not configured"
  | some _ =>
    match resp with
    | Except.error e => Except.error e
    | Except.ok d => Except.ok d

/-- Models `JalRakshakAPI.resolveAlert`: guard, then backend update. -/
def resolveAlertApi (sb : Option Unit)
    (resp : Except String AlertRow) : Except String AlertRow :=
  match sb with
  | none => Except.error "Supabase not configured"
  | some _ =>
    match resp with
    | Except.error e => Except.error e
    | Except.ok d => Except.ok d

/-- Models `JalRakshakAPI.submitComplaint` with photo support.  The complaints
table is carried as `db` so that keeping (never rolling back) the
inserted row is visible.  Backend outcomes are parameters:
`insertOutcome` is the insert response (on success, the inserted row);
`uploads` gives, per photo, the `PhotoUploadService.uploadComplaintPhoto`
outcome (`ok url` or `error`) — a failed upload is caught, logged and
skipped (`try/catch` around the loop body); `updateOutcome` is the
outcome of the follow-up `photo_urls` update, issued only when at least
one upload produced a URL.  Returns the table after the call and the
value returned / error thrown. -/
def submitComplaintApi (sb : Option Unit) (db : List ComplaintRow)
    (insertOutcome : Except String ComplaintRow)
    (uploads : List (Except String String))
    (updateOutcome : Except String Unit) :
    List ComplaintRow × Except String ComplaintRow :=
  match sb with
  | none => (db, Except.error "Supabase not configured")
  | some _ =>
    match insertOutcome with
    | Except.error e => (db, Except.error e)
    | Except.ok row =>
      let db1 := db ++ [row]
      if uploads.isEmpty then (db1, Except.ok row)
      else
        let photoUrls := uploads.filterMap Except.toOption
        if photoUrls.isEmpty then (db1, Except.ok row)
        else
          match updateOutcome with
          | Except.error e => (db1, Except.error e)
          | Except.ok _ =>
            let row1 := { row with photo_urls := some photoUrls }
            (db1.map (fun r => if r.id = row.id then row1 else r),
             Except.ok row1)

/-! ## Sensor-data simulation (`JalRakshakAPI.simulateSensorData`) -/

/-- One entry of the `sensorTypes` array in `simulateSensorData`. -/
structure SimSensor where
  type : String
  unit : String
  location : String
  baseValue : ℚ
deriving Repr, DecidableEq

/-- The four simulated sensors, in loop order. -/
def simSensors : List SimSensor :=
  [{ type := "flow", unit := "L/min", location := "Main Distribution", baseValue := 45 },
   { type := "pressure", unit := "bar", location := "Pump Station 1", baseValue := 3.8 },
   { type := "quality", unit := "%", location := "Storage Tank A", baseValue := 95 },
   { type := "temperature", unit := "°C", location := "Storage Tank A", baseValue := 24 }]

/-- The three `Math.random()` draws one loop iteration makes (variation,
battery level, signal strength); each lies in `[0, 1)`. -/
structure SimRand where
  v : ℚ
  b : ℚ
  g : ℚ
deriving Repr, DecidableEq

/-- The variation `(Math.random() - 0.5) * 2` of one iteration. -/
def variationOf (r : SimRand) : ℚ :=
  (r.v - 0.5) * 2

/-- The reading one iteration of `simulateSensorData` passes to
`insertSensorReading` (the id is generated by the backend; `now` stands
for `new Date().toISOString()`).  `status` is computed from the
pre-clamp `value`; the inserted value is `Math.max(0, value)`. -/
def simulateOne (s : SimSensor) (r : SimRand) (now : String) :
    SensorReadingRow :=
  let variation := variationOf r
  let value := s.baseValue + variation
  let status := if value < s.baseValue * 0.8 then "warning" else "normal"
  { id := "",
    sensor_id := s.type.toUpper ++ "_001",
    sensor_type := s.type,
    value := max 0 value,
    unit := s.unit,
    location := s.location,
    timestamp := now,
    status := status,
    device_id := none,
    battery_level := some ((r.b * 20).floor + 80),
    signal_strength := some ((r.g * 30).floor + 70) }

/-- The list of readings one invocation of `simulateSensorData` inserts
(assuming each awaited insert succeeds), given the random draws of the
four iterations in loop order. -/
def simulateSensorData (rands : List SimRand) (now : String) :
    List SensorReadingRow :=
  (simSensors.zip rands).map (fun p => simulateOne p.1 p.2 now)

/-! ## The `App` component's 3-second simulation loop -/

/-- The six `Math.random()` draws one `setInterval` tick of `App` makes,
in the order the fields are written. -/
structure Rand6 where
  rFlow : ℚ
  rPressure : ℚ
  rQuality : ℚ
  rTemperature : ℚ
  rPh : ℚ
  rTurbidity : ℚ
deriving Repr, DecidableEq

/-- The initial `sensorData` state of `App`. -/
def initialSensorData : SensorData :=
  { waterFlow := 45.2, pressure := 3.8, quality := 95,
    temperature := 24.5, ph := 7.2, turbidity := 0.8,
    solarPumpStatus := "active" }

/-- One tick of the `setInterval(..., 3000)` updater in `App`. -/
def simStep (s : SensorData) (r : Rand6) : SensorData :=
  { s with
    waterFlow := s.waterFlow + (r.rFlow - 0.5) * 2,
    pressure := max 0 (s.pressure + (r.rPressure - 0.5) * 0.2),
    quality := max 85 (min 100 (s.quality + (r.rQuality - 0.5) * 2)),
    temperature := s.temperature + (r.rTemperature - 0.5) * 0.5,
    ph := max 6.5 (min 8.5 (s.ph + (r.rPh - 0.5) * 0.1)),
    turbidity := max 0 (s.turbidity + (r.rTurbidity - 0.5) * 0.1) }

/-- The state after a finite sequence of timer ticks from the initial
state; every reachable state of the simulation is `simRun rs` for some
list of random draws `rs`. -/
def simRun (rs : List Rand6) : SensorData :=
  rs.foldl simStep initialSensorData

/-- The invariant claimed of `App`-simulated sensor data. -/
def appInvariant (s : SensorData) : Prop :=
  0 ≤ s.pressure ∧ 0 ≤ s.turbidity ∧
  85 ≤ s.quality ∧ s.quality ≤ 100 ∧
  6.5 ≤ s.ph ∧ s.ph ≤ 8.5

/-! ## Theorems -/

/-- C1: the alert-generation step of `AlertSystem` produces exactly the
four threshold-derived alerts, each present iff its threshold condition
holds on the sensor data: a critical `Low System Pressure Detected`
alert iff `pressure < 3.0`, a warning `Low Water Flow Rate` alert iff
`waterFlow < 35`, a warning `Water Quality Below Standard` alert iff
`quality < 90`, and a warning `pH Level Out of Range` alert iff
`ph < 6.5 ∨ ph > 8.5`; every threshold-derived alert is one of these
four, so no other threshold-derived alert is produced for any input. -/
theorem c1_threshold_alerts_exact :
    ∀ (s : SensorData) (now ts : String) (fmt1 fmt0 : ℚ → String),
    ((thresholdAlerts s now ts fmt1 fmt0).countP
        (fun a => a.title == "Low System Pressure Detected") =
      if s.pressure < 3.0 then 1 else 0) ∧
    ((thresholdAlerts s now ts fmt1 fmt0).countP
        (fun a => a.title == "Low Water Flow Rate") =
      if s.waterFlow < 35 then 1 else 0) ∧
    ((thresholdAlerts s now ts fmt1 fmt0).countP
        (fun a => a.title == "Water Quality Below Standard") =
      if s.quality < 90 then 1 else 0) ∧
    ((thresholdAlerts s now ts fmt1 fmt0).countP
        (fun a => a.title == "pH Level Out of Range") =
      if s.ph < 6.5 ∨ s.ph > 8.5 then 1 else 0) ∧
    (∀ a ∈ thresholdAlerts s now ts fmt1 fmt0,
      (a.title = "Low System Pressure Detected" ∧ a.type = AlertType.critical) ∨
      (a.title = "Low Water Flow Rate" ∧ a.type = AlertType.warning) ∨
      (a.title = "Water Quality Below Standard" ∧ a.type = AlertType.warning) ∨
      (a.title = "pH Level Out of Range" ∧ a.type = AlertType.warning)) := by
  intro s now ts fmt1 fmt0
  by_cases h1 : s.pressure < 3.0 <;> by_cases h2 : s.waterFlow < 35 <;>
    by_cases h3 : s.quality < 90 <;> by_cases h4 : s.ph < 6.5 ∨ s.ph > 8.5 <;>
    simp [thresholdAlerts, h1, h2, h3, h4, List.countP_append,
      List.countP_cons]

/-- A sensor-data value that trips the low-pressure threshold. -/
def demoSensorData : SensorData :=
  { waterFlow := 45.2, pressure := 2, quality := 95,
    temperature := 24.5, ph := 7.2, turbidity := 0.8,
    solarPumpStatus := "active" }

/-- A constant stand-in for the `toFixed` formatters. -/
def constFmt : ℚ → String := fun _ => "2.0"

/-- The concrete pressure alert generated for `demoSensorData`. -/
def demoPressureAlert : Alert :=
  { id := "pressure-" ++ "0",
    type := AlertType.critical,
    title := "Low System Pressure Detected",
    description := "Pressure has dropped to " ++ constFmt demoSensorData.pressure ++
      " bar, below the critical threshold of 3.0 bar.",
    timestamp := "t",
    source := "Pressure Sensor P1",
    acknowledged := false,
    resolved := false,
    actions := some ["Check pump operation", "Inspect for leaks",
      "Contact maintenance team"] }

/-- Sample run: `demoSensorData` trips only the pressure threshold, so the generated
threshold-alert list is exactly the one pressure alert. -/
lemma demo_threshold_eq :
    thresholdAlerts demoSensorData "0" "t" constFmt constFmt =
      [demoPressureAlert] := by
  have h1 : demoSensorData.pressure < 3.0 := by norm_num [demoSensorData]
  have h2 : ¬ demoSensorData.waterFlow < 35 := by norm_num [demoSensorData]
  have h3 : ¬ demoSensorData.quality < 90 := by norm_num [demoSensorData]
  have h4 : ¬ (demoSensorData.ph < 6.5 ∨ demoSensorData.ph > 8.5) := by
    norm_num [demoSensorData]
  simp [thresholdAlerts, h1, h2, h3, h4, demoPressureAlert]

/-- Witness for C1: the membership hypothesis of the final conjunct is
satisfied by the concrete pressure alert generated for
`demoSensorData`. -/
theorem c1_threshold_alerts_exact_witness :
    demoPressureAlert ∈ thresholdAlerts demoSensorData "0" "t" constFmt constFmt ∧
    ((demoPressureAlert.title = "Low System Pressure Detected" ∧
        demoPressureAlert.type = AlertType.critical) ∨
      (demoPressureAlert.title = "Low Water Flow Rate" ∧
        demoPressureAlert.type = AlertType.warning) ∨
      (demoPressureAlert.title = "Water Quality Below Standard" ∧
        demoPressureAlert.type = AlertType.warning) ∨
      (demoPressureAlert.title = "pH Level Out of Range" ∧
        demoPressureAlert.type = AlertType.warning)) :=
  ⟨by rw [demo_threshold_eq]; exact List.mem_singleton.mpr rfl,
   (c1_threshold_alerts_exact demoSensorData "0" "t" constFmt constFmt).2.2.2.2
     demoPressureAlert
     (by rw [demo_threshold_eq]; exact List.mem_singleton.mpr rfl)⟩

/-- A plain alert for concrete witnesses. -/
def demoAlert : Alert :=
  { id := "a1", type := AlertType.info, title := "T", description := "D",
    timestamp := "ts", source := "S", acknowledged := false,
    resolved := false, actions := none }

/-- C10: the client-side `acknowledgeAlert` preserves list length and
order, leaves every alert with a different id unchanged, and on a
matching alert changes only the `acknowledged` field to true. -/
theorem c10_acknowledge_frame :
    ∀ (alerts : List Alert) (alertId : String),
    (acknowledgeAlertClient alerts alertId).length = alerts.length ∧
    (∀ (i : Nat) (a : Alert), alerts[i]? = some a →
      (a.id ≠ alertId →
        (acknowledgeAlertClient alerts alertId)[i]? = some a) ∧
      (a.id = alertId →
        (acknowledgeAlertClient alerts alertId)[i]? = some
          { id := a.id, type := a.type, title := a.title,
            description := a.description, timestamp := a.timestamp,
            source := a.source, acknowledged := true,
            resolved := a.resolved, actions := a.actions })) := by
  intro alerts alertId
  refine ⟨List.length_map _ _, ?_⟩
  intro i a ha
  constructor
  · intro hne
    simp [acknowledgeAlertClient, List.getElem?_map, ha, hne]
  · intro heq
    simp [acknowledgeAlertClient, List.getElem?_map, ha, heq]

/-- Witness for C10 at a singleton list whose alert matches the id. -/
theorem c10_acknowledge_frame_witness :
    ([demoAlert] : List Alert)[0]? = some demoAlert ∧
    demoAlert.id = "a1" ∧
    (acknowledgeAlertClient [demoAlert] "a1")[0]? = some
      { id := demoAlert.id, type := demoAlert.type, title := demoAlert.title,
        description := demoAlert.description, timestamp := demoAlert.timestamp,
        source := demoAlert.source, acknowledged := true,
        resolved := demoAlert.resolved, actions := demoAlert.actions } :=
  ⟨rfl, rfl,
   ((c10_acknowledge_frame [demoAlert] "a1").2 0 demoAlert rfl).2 rfl⟩

/-- C3: `resolveAlert` (server side) sets both `resolved` and
`acknowledged` true in the same update; `acknowledgeAlert` sets
`acknowledged` true and never changes `resolved`; and the client-side
list operations preserve the invariant that a resolved alert is
acknowledged, so no operation yields a resolved-but-unacknowledged
alert. -/
theorem c3_resolved_implies_acknowledged :
    (∀ (now : String) (userId : Option String) (a : AlertRow),
      (resolveAlertUpdate now userId a).resolved = true ∧
      (resolveAlertUpdate now userId a).acknowledged = true) ∧
    (∀ (now : String) (userId : Option String) (a : AlertRow),
      (acknowledgeAlertUpdate now userId a).acknowledged = true ∧
      (acknowledgeAlertUpdate now userId a).resolved = a.resolved) ∧
    (∀ (alerts : List Alert) (alertId : String),
      (∀ a ∈ alerts, a.resolved = true → a.acknowledged = true) →
      (∀ b ∈ acknowledgeAlertClient alerts alertId,
        b.resolved = true → b.acknowledged = true) ∧
      (∀ b ∈ resolveAlertClient alerts alertId,
        b.resolved = true → b.acknowledged = true)) := by
  refine ⟨?_, ?_, ?_⟩
  · intro now userId a
    by_cases h : jsTruthy userId <;> simp [resolveAlertUpdate, h]
  · intro now userId a
    by_cases h : jsTruthy userId <;> simp [acknowledgeAlertUpdate, h]
  · intro alerts alertId hinv
    constructor
    · intro b hb
      simp only [acknowledgeAlertClient, List.mem_map] at hb
      obtain ⟨a, ha, rfl⟩ := hb
      by_cases hid : a.id = alertId
      · simp [hid]
      · simpa [hid] using hinv a ha
    · intro b hb
      simp only [resolveAlertClient, List.mem_map] at hb
      obtain ⟨a, ha, rfl⟩ := hb
      by_cases hid : a.id = alertId
      · simp [hid]
      · simpa [hid] using hinv a ha

/-- Witness for C3: the invariant hypothesis holds for the concrete
singleton list, and the conclusion holds for its resolve update. -/
theorem c3_resolved_implies_acknowledged_witness :
    (∀ a ∈ ([demoAlert] : List Alert), a.resolved = true → a.acknowledged = true) ∧
    (∀ b ∈ resolveAlertClient [demoAlert] "a1",
      b.resolved = true → b.acknowledged = true) :=
  ⟨by decide,
   ((c3_resolved_implies_acknowledged.2.2 [demoAlert] "a1") (by decide)).2⟩

/-- C4 counterexample: with the empty string as the `assignedTo`
argument — provided, but JS-falsy — `updateComplaintStatus` does not put
`assigned_to` on the update record, so "included exactly when an
assignedTo argument is provided" fails as stated. -/
theorem c4_counterexample :
    (updateComplaintStatusData "pending" (some "") none
        "2025-01-01T00:00:00Z").assigned_to = none ∧
    (some "" : Option String).isSome = true := by
  constructor
  · simp [updateComplaintStatusData, jsTruthy]
  · rfl

/-- C4 (amended): the update record contains `resolved_at` (set to the
current time) exactly when the new status is resolved, and contains
`assigned_to` exactly when a non-empty `assignedTo` argument is
provided, in which case it carries that argument's value. -/
theorem c4_update_record_fields :
    ∀ (status : String) (assignedTo resolutionNotes : Option String) (now : String),
    ((updateComplaintStatusData status assignedTo resolutionNotes now).resolved_at
        = some now ↔ status = "resolved") ∧
    ((updateComplaintStatusData status assignedTo resolutionNotes now).resolved_at
        = none ↔ status ≠ "resolved") ∧
    ((updateComplaintStatusData status assignedTo resolutionNotes now).assigned_to.isSome
        ↔ ∃ s, assignedTo = some s ∧ s ≠ "") ∧
    (∀ s, (updateComplaintStatusData status assignedTo resolutionNotes now).assigned_to
        = some s → assignedTo = some s) := by
  intro status aT rN now
  refine ⟨?_, ?_, ?_, ?_⟩
  · by_cases h : status = "resolved" <;> simp [updateComplaintStatusData, h]
  · by_cases h : status = "resolved" <;> simp [updateComplaintStatusData, h]
  · cases aT with
    | none => simp [updateComplaintStatusData, jsTruthy]
    | some s =>
      by_cases hs : s = "" <;> simp [updateComplaintStatusData, jsTruthy, hs]
  · intro s hs
    cases aT with
    | none => simp [updateComplaintStatusData, jsTruthy] at hs
    | some s0 =>
      by_cases h0 : s0 = ""
      · simp [updateComplaintStatusData, jsTruthy, h0] at hs
      · simp [updateComplaintStatusData, jsTruthy, h0] at hs
        simp [hs]

/-- Witness for C4's amended theorem at a resolved status with a
non-empty assignee. -/
theorem c4_update_record_fields_witness :
    (("resolved" : String) = "resolved") ∧
    (updateComplaintStatusData "resolved" (some "staff-7") none "T").resolved_at
      = some "T" :=
  ⟨rfl,
   ((c4_update_record_fields "resolved" (some "staff-7") none "T").1).mpr rfl⟩

/-- C8: with the Supabase client unconfigured (`null`), every read
operation returns an empty result without throwing, `subscribeTo`
returns the no-op subscription, and every write operation throws
`Supabase not configured`. -/
theorem c8_unconfigured_behavior :
    (∀ resp, getLatestSensorReadingsApi none resp = Except.ok []) ∧
    (∀ t resp, getSensorReadingsByTypeApi none t resp = Except.ok []) ∧
    (∀ resp, getComplaintsApi none resp = Except.ok []) ∧
    (∀ resp, getMaintenanceTasksApi none resp = Except.ok []) ∧
    (∀ resp, getAlertsApi none resp = Except.ok []) ∧
    (∀ d resp, getConsumptionAnalyticsApi none d resp = Except.ok []) ∧
    (∀ resp, getSystemHealthApi none resp = Except.ok []) ∧
    (∀ t, subscribeToApi none t = Subscription.noop) ∧
    (∀ resp, insertSensorReadingApi none resp =
      Except.error "Supabase not configured") ∧
    (∀ db ins ups upd, submitComplaintApi none db ins ups upd =
      (db, Except.error "Supabase not configured")) ∧
    (∀ st aT rN now resp, updateComplaintStatusApi none st aT rN now resp =
      Except.error "Supabase not configured") ∧
    (∀ resp, createMaintenanceTaskApi none resp =
      Except.error "Supabase not configured") ∧
    (∀ resp, completeMaintenanceTaskApi none resp =
      Except.error "Supabase not configured") ∧
    (∀ resp, createAlertApi none resp =
      Except.error "Supabase not configured") ∧
    (∀ resp, acknowledgeAlertApi none resp =
      Except.error "Supabase not configured") ∧
    (∀ resp, resolveAlertApi none resp =
      Except.error "Supabase not configured") :=
  ⟨fun _ => rfl, fun _ _ => rfl, fun _ => rfl, fun _ => rfl, fun _ => rfl,
   fun _ _ => rfl, fun _ => rfl, fun _ => rfl, fun _ => rfl,
   fun _ _ _ _ => rfl, fun _ _ _ _ _ => rfl, fun _ => rfl, fun _ => rfl,
   fun _ => rfl, fun _ => rfl, fun _ => rfl⟩

/-- One timer tick re-establishes the clamp invariants unconditionally:
every clamped field is written through its `Math.max`/`Math.min` guard. -/
lemma simStep_invariant (s : SensorData) (r : Rand6) :
    appInvariant (simStep s r) := by
  simp only [simStep, appInvariant]
  refine ⟨le_max_left _ _, le_max_left _ _, le_max_left _ _, ?_,
    le_max_left _ _, ?_⟩
  · exact max_le (by norm_num) (min_le_left _ _)
  · exact max_le (by norm_num) (min_le_left _ _)

/-- Folding any tick sequence from an invariant state stays invariant. -/
lemma simRun_invariant_aux :
    ∀ (rs : List Rand6) (s : SensorData), appInvariant s →
      appInvariant (rs.foldl simStep s)
  | [], _, h => h
  | r :: rs, s, _ =>
    simRun_invariant_aux rs (simStep s r) (simStep_invariant s r)

/-- The initial `App` state satisfies the invariant. -/
lemma initial_invariant : appInvariant initialSensorData := by
  norm_num [appInvariant, initialSensorData]

/-- C9: every state of the `App` sensor simulation reachable from the
initial state by timer ticks satisfies `pressure ≥ 0`, `turbidity ≥ 0`,
`quality ∈ [85, 100]` and `ph ∈ [6.5, 8.5]`; consequently the
strict-inequality pH alert condition never fires, i.e. `AlertSystem`
generates no `pH Level Out of Range` alert from App-simulated data. -/
theorem c9_app_simulation_invariants :
    ∀ (rs : List Rand6),
    appInvariant (simRun rs) ∧
    (∀ (now ts : String) (fmt1 fmt0 : ℚ → String),
      (thresholdAlerts (simRun rs) now ts fmt1 fmt0).countP
        (fun a => a.title == "pH Level Out of Range") = 0) := by
  intro rs
  have hinv : appInvariant (simRun rs) :=
    simRun_invariant_aux rs initialSensorData initial_invariant
  refine ⟨hinv, ?_⟩
  intro now ts fmt1 fmt0
  obtain ⟨_, _, _, _, h5, h6⟩ := hinv
  have h4 : ¬((simRun rs).ph < 6.5 ∨ (simRun rs).ph > 8.5) := by
    push_neg
    exact ⟨h5, h6⟩
  by_cases h1 : (simRun rs).pressure < 3.0 <;>
    by_cases h2 : (simRun rs).waterFlow < 35 <;>
    by_cases h3 : (simRun rs).quality < 90 <;>
    simp [thresholdAlerts, h1, h2, h3, h4, List.countP_append,
      List.countP_cons]

/-- Association-list lookup in a singleton. -/
lemma lookup_singleton (k t v : String) :
    ([(k, v)] : List (String × String)).lookup t =
      if t = k then some v else none := by
  by_cases h : t = k
  · subst h; simp [List.lookup_cons]
  · have hb : (t == k) = false := beq_eq_false_iff_ne.mpr h
    simp [List.lookup_cons, hb, h, List.lookup]

/-- Association-list lookup distributes over append via `Option.or`. -/
lemma lookup_append (l1 l2 : List (String × String)) (t : String) :
    (l1 ++ l2).lookup t = (l1.lookup t).or (l2.lookup t) := by
  induction l1 with
  | nil => simp [List.lookup]
  | cons p l ih =>
    obtain ⟨k, v⟩ := p
    by_cases h : t = k
    · subst h; simp [List.lookup_cons]
    · have hb : (t == k) = false := beq_eq_false_iff_ne.mpr h
      simp [List.lookup_cons, hb, ih]

/-- A key is in the key list iff lookup succeeds. -/
lemma mem_keys_iff_lookup_isSome (l : List (String × String)) (t : String) :
    t ∈ l.map Prod.fst ↔ (l.lookup t).isSome := by
  induction l with
  | nil => simp [List.lookup]
  | cons p l ih =>
    obtain ⟨k, v⟩ := p
    by_cases h : t = k
    · subst h; simp [List.lookup_cons]
    · have hb : (t == k) = false := beq_eq_false_iff_ne.mpr h
      simp [List.lookup_cons, hb, h, ih]

/-- Lookup after the `getSystemHealth` fold: an entry already present in
the accumulator wins; otherwise the first reading of the type is
recorded. -/
lemma healthFold_lookup (rs : List HealthRow) :
    ∀ (acc : List (String × String)) (t : String),
      (healthFold acc rs).lookup t =
        (acc.lookup t).or
          ((rs.find? (fun r => r.sensor_type == t)).map HealthRow.status) := by
  induction rs with
  | nil => intro acc t; simp [healthFold]
  | cons r rs ih =>
    intro acc t
    simp only [healthFold]
    by_cases ht : r.sensor_type = t
    · subst ht
      cases hacc : acc.lookup r.sensor_type with
      | some v =>
        rw [if_pos (by simp [hacc]), ih]
        simp [hacc, List.find?_cons_of_pos, Option.or]
      | none =>
        rw [if_neg (by simp [hacc]), ih, lookup_append]
        simp [hacc, lookup_singleton, List.find?_cons_of_pos, Option.or]
    · have hpred : (r.sensor_type == t) = false := beq_eq_false_iff_ne.mpr ht
      have htk : t ≠ r.sensor_type := fun h => ht h.symm
      by_cases hk : (acc.lookup r.sensor_type).isSome
      · rw [if_pos hk, ih]
        simp [List.find?_cons_of_neg, hpred]
      · rw [if_neg hk, ih, lookup_append]
        simp [lookup_singleton, htk, List.find?_cons_of_neg, hpred]

/-- The fold never introduces a duplicate key. -/
lemma healthFold_keys_nodup (rs : List HealthRow) :
    ∀ acc : List (String × String), (acc.map Prod.fst).Nodup →
      ((healthFold acc rs).map Prod.fst).Nodup := by
  induction rs with
  | nil => intro acc h; simpa [healthFold] using h
  | cons r rs ih =>
    intro acc h
    simp only [healthFold]
    by_cases hk : (acc.lookup r.sensor_type).isSome
    · rw [if_pos hk]; exact ih acc h
    · rw [if_neg hk]
      apply ih
      rw [List.map_append, List.nodup_append]
      refine ⟨h, by simp, ?_⟩
      intro a ha hb
      simp at hb
      subst hb
      exact hk ((mem_keys_iff_lookup_isSome acc r.sensor_type).mp ha)

/-- C6: `getSystemHealth`'s client-side reduction maps each sensor type
occurring in the (newest-first) readings to the status of its first
occurrence, has no duplicate keys, and contains no key for a type that
does not occur; later readings of an already-seen type never overwrite
the recorded status. -/
theorem c6_system_health_first_status :
    ∀ (rs : List HealthRow),
    (∀ t : String, (healthMapOf rs).lookup t =
      (rs.find? (fun r => r.sensor_type == t)).map HealthRow.status) ∧
    ((healthMapOf rs).map Prod.fst).Nodup ∧
    (∀ t : String, ((healthMapOf rs).lookup t).isSome ↔
      ∃ r ∈ rs, r.sensor_type = t) := by
  intro rs
  refine ⟨?_, healthFold_keys_nodup rs [] (by simp), ?_⟩
  · intro t
    rw [healthMapOf, healthFold_lookup]
    simp [List.lookup, Option.or]
  · intro t
    rw [healthMapOf, healthFold_lookup]
    simp [List.lookup, Option.or, List.find?_isSome]

/-- C7 counterexample: `Math.random()` ranges over `[0, 1)`, and at the
admissible draw 0 the variation `(0 - 0.5) * 2` is exactly -1, which is
not in the open interval (-1, 1) stated by the claim. -/
theorem c7_counterexample :
    ((0 : ℚ) ≤ 0 ∧ (0 : ℚ) < 1) ∧
    variationOf { v := 0, b := 0, g := 0 } = -1 ∧
    ¬(-1 < variationOf { v := 0, b := 0, g := 0 } ∧
      variationOf { v := 0, b := 0, g := 0 } < 1) := by
  norm_num [variationOf]

/-- C7 (amended): each invocation of `simulateSensorData` inserts exactly
one reading for each of flow, pressure, quality and temperature (in that
order); each inserted value is `max 0 (baseValue + variation)` with the
variation in the half-open interval `[-1, 1)`; and the inserted status is
`warning` iff the pre-clamp value is strictly below 0.8 times the base
value, `normal` otherwise. -/
theorem c7_simulated_readings :
    ∀ (rands : List SimRand) (now : String),
    rands.length = 4 →
    (∀ r ∈ rands, 0 ≤ r.v ∧ r.v < 1) →
    (simulateSensorData rands now).length = 4 ∧
    (simulateSensorData rands now).map SensorReadingRow.sensor_type =
      ["flow", "pressure", "quality", "temperature"] ∧
    (∀ s r, (s, r) ∈ simSensors.zip rands →
      -1 ≤ variationOf r ∧ variationOf r < 1 ∧
      (simulateOne s r now).value = max 0 (s.baseValue + variationOf r) ∧
      ((simulateOne s r now).status = "warning" ↔
        s.baseValue + variationOf r < s.baseValue * 0.8) ∧
      ((simulateOne s r now).status = "normal" ↔
        ¬ s.baseValue + variationOf r < s.baseValue * 0.8)) := by
  intro rands now hlen hbound
  refine ⟨?_, ?_, ?_⟩
  · rcases rands with _ | ⟨r0, _ | ⟨r1, _ | ⟨r2, _ | ⟨r3, rest⟩⟩⟩⟩ <;>
      simp_all [simulateSensorData, simSensors]
  · rcases rands with _ | ⟨r0, _ | ⟨r1, _ | ⟨r2, _ | ⟨r3, rest⟩⟩⟩⟩ <;>
      simp_all [simulateSensorData, simSensors, simulateOne]
  · intro s r hmem
    have hr := hbound r (List.of_mem_zip hmem).2
    have hlow : -1 ≤ variationOf r := by
      unfold variationOf
      have := hr.1
      linarith
    have hhigh : variationOf r < 1 := by
      unfold variationOf
      have := hr.2
      linarith
    refine ⟨hlow, hhigh, rfl, ?_, ?_⟩
    · by_cases hc : s.baseValue + variationOf r < s.baseValue * 0.8 <;>
        simp [simulateOne, variationOf, hc]
    · by_cases hc : s.baseValue + variationOf r < s.baseValue * 0.8 <;>
        simp [simulateOne, variationOf, hc]

/-- Witness for C7's amended theorem at four concrete midpoint draws. -/
theorem c7_simulated_readings_witness :
    (([⟨0.5, 0.5, 0.5⟩, ⟨0.5, 0.5, 0.5⟩, ⟨0.5, 0.5, 0.5⟩,
        ⟨0.5, 0.5, 0.5⟩] : List SimRand).length = 4) ∧
    (simulateSensorData
        [⟨0.5, 0.5, 0.5⟩, ⟨0.5, 0.5, 0.5⟩, ⟨0.5, 0.5, 0.5⟩,
          ⟨0.5, 0.5, 0.5⟩] "T").map SensorReadingRow.sensor_type =
      ["flow", "pressure", "quality", "temperature"] :=
  ⟨rfl,
   (c7_simulated_readings
      [⟨0.5, 0.5, 0.5⟩, ⟨0.5, 0.5, 0.5⟩, ⟨0.5, 0.5, 0.5⟩, ⟨0.5, 0.5, 0.5⟩]
      "T" rfl (by norm_num)).2.1⟩

/-- A concrete complaint row for witnesses. -/
def demoComplaint : ComplaintRow :=
  { id := "c1", description := "leak", location := "ward 3",
    priority := "high", status := "pending", submitted_by := "u1",
    submitted_at := "2025-01-01", photo_urls := none,
    gps_coordinates := none, gps_accuracy := none, resolved_at := none,
    assigned_to := none, resolution_notes := none, category := none }

/-- C2: when the complaint insert succeeds and some photo upload fails
(given the follow-up `photo_urls` update, when issued, succeeds), the
failure is swallowed: `submitComplaint` still returns the complaint with
exactly the successfully uploaded URLs (the failed photos' URLs are
omitted; the row is untouched when every upload failed), the inserted
row stays in the complaints table (no rollback), and no error is
thrown. -/
theorem c2_submit_complaint_upload_failure :
    ∀ (db : List ComplaintRow) (row : ComplaintRow)
      (uploads : List (Except String String)),
    (∃ u ∈ uploads, u.isOk = false) →
    (submitComplaintApi (some ()) db (Except.ok row) uploads
        (Except.ok ())).2 =
      Except.ok (if (uploads.filterMap Except.toOption).isEmpty then row
        else { row with
          photo_urls := some (uploads.filterMap Except.toOption) }) ∧
    (∃ r ∈ (submitComplaintApi (some ()) db (Except.ok row) uploads
        (Except.ok ())).1, r.id = row.id) ∧
    ((uploads.filterMap Except.toOption).isEmpty →
      submitComplaintApi (some ()) db (Except.ok row) uploads
        (Except.ok ()) = (db ++ [row], Except.ok row)) := by
  intro db row uploads hfail
  obtain ⟨u, hu, _⟩ := hfail
  have hne : ¬ uploads.isEmpty = true := by
    cases uploads with
    | nil => simp at hu
    | cons a l => simp
  simp only [submitComplaintApi]
  rw [if_neg hne]
  by_cases hurls : (uploads.filterMap Except.toOption).isEmpty = true
  · rw [if_pos hurls]
    refine ⟨by simp [hurls], ⟨row, by simp, rfl⟩, fun _ => rfl⟩
  · rw [if_neg hurls]
    refine ⟨by simp [hurls], ?_, fun h => absurd h hurls⟩
    refine ⟨{ row with
      photo_urls := some (uploads.filterMap Except.toOption) }, ?_, rfl⟩
    have hm : row ∈ db ++ [row] := by simp
    have hmap := List.mem_map_of_mem
      (fun r => if r.id = row.id then
        { row with photo_urls := some (uploads.filterMap Except.toOption) }
        else r) hm
    simp only [if_pos rfl] at hmap
    exact hmap

/-- Witness for C2: a single failing upload on a concrete complaint. -/
theorem c2_submit_complaint_upload_failure_witness :
    (∃ u ∈ ([Except.error "upload failed"] : List (Except String String)),
      u.isOk = false) ∧
    submitComplaintApi (some ()) [] (Except.ok demoComplaint)
        [Except.error "upload failed"] (Except.ok ()) =
      ([demoComplaint], Except.ok demoComplaint) :=
  ⟨⟨Except.error "upload failed", by simp, rfl⟩,
   (c2_submit_complaint_upload_failure [] demoComplaint
      [Except.error "upload failed"]
      ⟨Except.error "upload failed", by simp, rfl⟩).2.2 rfl⟩

/-- Health rows with the same sensor type, for the C5 counterexample. -/
def demoHealthRowA : HealthRow :=
  { sensor_type := "flow", status := "normal", timestamp := "t2" }

/-- A second, older reading of the same type with a different status. -/
def demoHealthRowB : HealthRow :=
  { sensor_type := "flow", status := "critical", timestamp := "t1" }

/-- C5 counterexample: `getSystemHealth` is not a direct pass-through:
two different successful backend responses yield the same returned
value, so the operation does not return the backend's data without
modification. -/
theorem c5_counterexample :
    getSystemHealthApi (some ())
        (Except.ok [demoHealthRowA, demoHealthRowB]) =
      getSystemHealthApi (some ()) (Except.ok [demoHealthRowA]) ∧
    ([demoHealthRowA, demoHealthRowB] : List HealthRow) ≠
      [demoHealthRowA] := by
  exact ⟨rfl, by decide⟩

/-- C5 (amended): every wrapper operation raises (throws) if and only if
an uncaught wrapped backend call returns an error, and propagates that
error unchanged: for the plain wrappers that is their single
select/insert/update call, for `updateComplaintStatus` and the
photo-supporting `completeMaintenanceTask` the update on their
constructed record, and for `submitComplaint` the complaint insert or
the follow-up `photo_urls` update — the caught per-photo upload
failures inside `submitComplaint` and the photo-supporting
`completeMaintenanceTask` only affect the collected URLs and never
raise.  When no error is returned, the operation returns the data of
its final backend call without modification — except `getSystemHealth`,
which returns the client-side reduction of the fetched data rather than
the data itself. -/
theorem c5_wrappers_throw_iff_error :
    (∀ e d, getLatestSensorReadingsApi (some ()) (Except.error e) =
        Except.error e ∧
      getLatestSensorReadingsApi (some ()) (Except.ok d) = Except.ok d) ∧
    (∀ t e d, getSensorReadingsByTypeApi (some ()) t (Except.error e) =
        Except.error e ∧
      getSensorReadingsByTypeApi (some ()) t (Except.ok d) = Except.ok d) ∧
    (∀ e d, getComplaintsApi (some ()) (Except.error e) = Except.error e ∧
      getComplaintsApi (some ()) (Except.ok d) = Except.ok d) ∧
    (∀ e d, getMaintenanceTasksApi (some ()) (Except.error e) =
        Except.error e ∧
      getMaintenanceTasksApi (some ()) (Except.ok d) = Except.ok d) ∧
    (∀ e d, getAlertsApi (some ()) (Except.error e) = Except.error e ∧
      getAlertsApi (some ()) (Except.ok d) = Except.ok d) ∧
    (∀ n e d, getConsumptionAnalyticsApi (some ()) n (Except.error e) =
        Except.error e ∧
      getConsumptionAnalyticsApi (some ()) n (Except.ok d) = Except.ok d) ∧
    (∀ e d, insertSensorReadingApi (some ()) (Except.error e) =
        Except.error e ∧
      insertSensorReadingApi (some ()) (Except.ok d) = Except.ok d) ∧
    (∀ e d, createMaintenanceTaskApi (some ()) (Except.error e) =
        Except.error e ∧
      createMaintenanceTaskApi (some ()) (Except.ok d) = Except.ok d) ∧
    (∀ e d, completeMaintenanceTaskApi (some ()) (Except.error e) =
        Except.error e ∧
      completeMaintenanceTaskApi (some ()) (Except.ok d) = Except.ok d) ∧
    (∀ e d, createAlertApi (some ()) (Except.error e) = Except.error e ∧
      createAlertApi (some ()) (Except.ok d) = Except.ok d) ∧
    (∀ e d, acknowledgeAlertApi (some ()) (Except.error e) =
        Except.error e ∧
      acknowledgeAlertApi (some ()) (Except.ok d) = Except.ok d) ∧
    (∀ e d, resolveAlertApi (some ()) (Except.error e) = Except.error e ∧
      resolveAlertApi (some ()) (Except.ok d) = Except.ok d) ∧
    (∀ st aT rN now resp, updateComplaintStatusApi (some ()) st aT rN now resp =
      resp (updateComplaintStatusData st aT rN now)) ∧
    (∀ e d, getSystemHealthApi (some ()) (Except.error e) = Except.error e ∧
      getSystemHealthApi (some ()) (Except.ok d) =
        Except.ok (healthMapOf d)) ∧
    (∀ db e uploads upd, submitComplaintApi (some ()) db (Except.error e)
        uploads upd = (db, Except.error e)) ∧
    (∀ db row uploads e, uploads.filterMap Except.toOption ≠ [] →
      submitComplaintApi (some ()) db (Except.ok row) uploads
          (Except.error e) =
        (db ++ [row], Except.error e)) ∧
    (∀ db row uploads,
      ((submitComplaintApi (some ()) db (Except.ok row) uploads
          (Except.ok ())).2).isOk = true) ∧
    (∀ db row, submitComplaintApi (some ()) db (Except.ok row) []
        (Except.ok ()) = (db ++ [row], Except.ok row)) ∧
    (∀ db row uploads, uploads.filterMap Except.toOption ≠ [] →
      (submitComplaintApi (some ()) db (Except.ok row) uploads
          (Except.ok ())).2 =
        Except.ok { row with
          photo_urls := some (uploads.filterMap Except.toOption) }) ∧
    (∀ nt uploads now resp,
      completeMaintenanceTaskPhotosApi (some ()) nt uploads now resp =
        resp (completeMaintenanceTaskUpdateData nt
          (uploads.filterMap Except.toOption) now)) := by
  refine ⟨fun _ _ => ⟨rfl, rfl⟩, fun _ _ _ => ⟨rfl, rfl⟩,
    fun _ _ => ⟨rfl, rfl⟩, fun _ _ => ⟨rfl, rfl⟩, fun _ _ => ⟨rfl, rfl⟩,
    fun _ _ _ => ⟨rfl, rfl⟩, fun _ _ => ⟨rfl, rfl⟩, fun _ _ => ⟨rfl, rfl⟩,
    fun _ _ => ⟨rfl, rfl⟩, fun _ _ => ⟨rfl, rfl⟩, fun _ _ => ⟨rfl, rfl⟩,
    fun _ _ => ⟨rfl, rfl⟩, ?_, fun _ _ => ⟨rfl, rfl⟩,
    fun _ _ _ _ => rfl, ?_, ?_, fun _ _ => rfl, ?_, ?_⟩
  · intro st aT rN now resp
    cases h : resp (updateComplaintStatusData st aT rN now) <;>
      simp [updateComplaintStatusApi, h]
  · intro db row uploads e hne
    have h2 : (uploads.filterMap Except.toOption).isEmpty = false := by
      cases h : uploads.filterMap Except.toOption with
      | nil => exact absurd h hne
      | cons a l => rfl
    have h1 : uploads.isEmpty = false := by
      cases uploads with
      | nil => simp at hne
      | cons a l => rfl
    simp [submitComplaintApi, h1, h2]
  · intro db row uploads
    by_cases h1 : uploads.isEmpty = true
    · simp [submitComplaintApi, h1]
      rfl
    · by_cases h2 : (uploads.filterMap Except.toOption).isEmpty = true
      · simp [submitComplaintApi, h1, h2]
        rfl
      · simp [submitComplaintApi, h1, h2]
        rfl
  · intro db row uploads hne
    have h2 : (uploads.filterMap Except.toOption).isEmpty = false := by
      cases h : uploads.filterMap Except.toOption with
      | nil => exact absurd h hne
      | cons a l => rfl
    have h1 : uploads.isEmpty = false := by
      cases uploads with
      | nil => simp at hne
      | cons a l => rfl
    simp [submitComplaintApi, h1, h2]
  · intro nt uploads now resp
    cases h : resp (completeMaintenanceTaskUpdateData nt
        (uploads.filterMap Except.toOption) now) <;>
      simp [completeMaintenanceTaskPhotosApi, h]

/-- Witness for C5's amended theorem: a successful upload followed by a
failing `photo_urls` update propagates the update's error unchanged. -/
theorem c5_wrappers_throw_iff_error_witness :
    (([Except.ok "u1"] : List (Except String String)).filterMap
        Except.toOption ≠ []) ∧
    submitComplaintApi (some ()) [] (Except.ok demoComplaint)
        [Except.ok "u1"] (Except.error "update failed") =
      ([demoComplaint], Except.error "update failed") := by
  obtain ⟨-, -, -, -, -, -, -, -, -, -, -, -, -, -, -, hupd, -, -, -, -⟩ :=
    c5_wrappers_throw_iff_error
  exact ⟨by decide,
    hupd [] demoComplaint [Except.ok "u1"] "update failed" (by decide)⟩

end JalRakshak
